import Mathlib

/-!
Verification of the PDK compliance-hook suite (`hooks/_utils.py` and the
`check_*.py` hooks) against its natural-language specification.

The Python sources are shallowly embedded:

* file contents are represented by their parse results (`Option PyModule`,
  `none` meaning the file has a syntax error, exactly the `None` returned by
  `parse_file`); the filesystem facts a hook reads (which files/directories
  exist, their parsed contents) are the input of the embedded hook;
* `print`-based output is modelled as the list of printed lines, and each
  hook's `main()` returns `(printed lines, exit code)`;
* Python `dict`s are association lists where a later binding for the same key
  overwrites the earlier one; Python `set`s used only through membership are
  lists queried by membership; where a `set` is *iterated* (emission order!)
  the iteration order is an explicit parameter constrained to be a
  permutation of the set's elements, because CPython's iteration order for a
  set of strings depends on the per-process string-hash seed.
-/

namespace PdkHooks

/-- Python `sub in s` substring test on lists of characters. -/
def charsContains (needle : List Char) : List Char → Bool
  | [] => needle.isEmpty
  | c :: t => needle.isPrefixOf (c :: t) || charsContains needle t

/-- Python `sub in s` substring test on strings. -/
def strContains (s sub : String) : Bool :=
  charsContains sub.toList s.toList

/-- Python `s.startswith(pre)`. -/
def strStartsWith (s pre : String) : Bool :=
  pre.toList.isPrefixOf s.toList

/-- Python `s.endswith(post)`. -/
def strEndsWith (s post : String) : Bool :=
  post.toList.isSuffixOf s.toList

/-- Python `s.upper()` on ASCII identifiers. -/
def strToUpper (s : String) : String :=
  ⟨s.toList.map Char.toUpper⟩

/-- Code-point lexicographic `≤` on character lists: how Python compares
two `str` values. -/
def charsLe : List Char → List Char → Bool
  | [], _ => true
  | _ :: _, [] => false
  | c :: cs, d :: ds =>
      if c.toNat < d.toNat then true
      else if d.toNat < c.toNat then false
      else charsLe cs ds

/-- Python `a <= b` on strings. -/
def pyStrLe (a b : String) : Bool := charsLe a.toList b.toList

/-- The ordering Python `sorted` applies to strings, as a relation. -/
def pyLe (a b : String) : Prop := pyStrLe a b = true

instance : DecidableRel pyLe :=
  fun a b => inferInstanceAs (Decidable (pyStrLe a b = true))

theorem charsLe_cons {x y : Char} {xs ys : List Char} :
    charsLe (x :: xs) (y :: ys) = true ↔
      (x.toNat < y.toNat ∨ (x.toNat = y.toNat ∧ charsLe xs ys = true)) := by
  simp only [charsLe]
  split_ifs with h1 h2
  · simp [h1]
  · simp only [Bool.false_eq_true, false_iff]
    rintro (h | ⟨h, -⟩) <;> omega
  · have hxy : x.toNat = y.toNat := by omega
    rw [hxy]
    simp

theorem charsLe_total : ∀ a b : List Char,
    charsLe a b = true ∨ charsLe b a = true
  | [], _ => .inl rfl
  | _ :: _, [] => .inr rfl
  | x :: xs, y :: ys => by
      rcases Nat.lt_trichotomy x.toNat y.toNat with h | h | h
      · exact .inl (charsLe_cons.mpr (.inl h))
      · rcases charsLe_total xs ys with h' | h'
        · exact .inl (charsLe_cons.mpr (.inr ⟨h, h'⟩))
        · exact .inr (charsLe_cons.mpr (.inr ⟨h.symm, h'⟩))
      · exact .inr (charsLe_cons.mpr (.inl h))

theorem charsLe_trans : ∀ a b c : List Char,
    charsLe a b = true → charsLe b c = true → charsLe a c = true
  | [], _, _, _, _ => rfl
  | _ :: _, [], _, h1, _ => by simp [charsLe] at h1
  | _ :: _, _ :: _, [], _, h2 => by simp [charsLe] at h2
  | x :: xs, y :: ys, z :: zs, h1, h2 => by
      rw [charsLe_cons] at h1 h2 ⊢
      rcases h1 with h1 | ⟨h1, h1'⟩
      · rcases h2 with h2 | ⟨h2, -⟩ <;> exact .inl (by omega)
      · rcases h2 with h2 | ⟨h2, h2'⟩
        · exact .inl (by omega)
        · exact .inr ⟨by omega, charsLe_trans xs ys zs h1' h2'⟩

theorem Char.eq_of_toNat_eq {c d : Char} (h : c.toNat = d.toNat) : c = d :=
  Char.eq_of_val_eq (UInt32.eq_of_toBitVec_eq (BitVec.eq_of_toNat_eq h))

theorem charsLe_antisymm : ∀ a b : List Char,
    charsLe a b = true → charsLe b a = true → a = b
  | [], [], _, _ => rfl
  | [], _ :: _, _, h2 => by simp [charsLe] at h2
  | _ :: _, [], h1, _ => by simp [charsLe] at h1
  | x :: xs, y :: ys, h1, h2 => by
      rw [charsLe_cons] at h1 h2
      rcases h1 with h1 | ⟨h1, h1'⟩
      · rcases h2 with h2 | ⟨h2, -⟩ <;> (exfalso; omega)
      · rcases h2 with h2 | ⟨h2, h2'⟩
        · exfalso; omega
        · rw [Char.eq_of_toNat_eq h1, charsLe_antisymm xs ys h1' h2']

theorem string_ext {a b : String} (h : a.toList = b.toList) : a = b := by
  cases a; cases b
  simpa [String.toList] using congrArg String.mk h

instance : IsTotal String pyLe :=
  ⟨fun a b => charsLe_total a.toList b.toList⟩

instance : IsTrans String pyLe :=
  ⟨fun a b c => charsLe_trans a.toList b.toList c.toList⟩

instance : IsAntisymm String pyLe :=
  ⟨fun a b h1 h2 => string_ext (charsLe_antisymm a.toList b.toList h1 h2)⟩

/-- Python `sorted` on a list of strings (ascending lexicographic order by
code point). -/
def sortStrings (l : List String) : List String :=
  List.insertionSort pyLe l

/-- Python `sorted` applied to a `set` of strings: duplicates removed, then
ascending order. -/
def setSorted (l : List String) : List String :=
  sortStrings l.dedup

/-- Python `repr` of a list of strings, as printed by an f-string:
`['a', 'b']`. -/
def pyStrList (l : List String) : String :=
  "[" ++ String.intercalate ", " (l.map (fun s => "'" ++ s ++ "'")) ++ "]"

/-- Python `repr` of a boolean (`True` / `False`). -/
def pyBool (b : Bool) : String := if b then "True" else "False"

/-- The `'=' * 60` separator line printed by `CheckResult.report`. -/
def eqBar : String := ⟨List.replicate 60 '='⟩

/-- `hooks/_utils.py` `CheckResult`: accumulates the error and warning
messages of one hook run (`_errors` / `_warnings`, each in insertion
order). -/
structure CheckResult where
  hook_name : String
  errors : List String
  warnings : List String
deriving Repr, DecidableEq

/-- `CheckResult.__init__`. -/
def CheckResult.new (hook_name : String) : CheckResult :=
  { hook_name := hook_name, errors := [], warnings := [] }

/-- `CheckResult.error`: record a failing check. -/
def CheckResult.error (r : CheckResult) (msg : String) : CheckResult :=
  { r with errors := r.errors ++ [msg] }

/-- `CheckResult.warn`: record a non-fatal warning. -/
def CheckResult.warn (r : CheckResult) (msg : String) : CheckResult :=
  { r with warnings := r.warnings ++ [msg] }

/-- `CheckResult.has_errors`. -/
def CheckResult.has_errors (r : CheckResult) : Bool := !r.errors.isEmpty

/-- The lines printed by `CheckResult.report` (`_utils.py` lines 170-190).
`print(s)` contributes the lines of `s` followed by a newline, so
`print(f"\n{'=' * 60}")` contributes an empty line and a bar line, and the
trailing `print()` contributes one empty line. -/
def CheckResult.reportLines (r : CheckResult) : List String :=
  if r.errors.isEmpty && r.warnings.isEmpty then []
  else
    (if r.errors.isEmpty then []
     else ["", eqBar,
           s!"  {r.hook_name}: {r.errors.length} error(s) found", eqBar]
          ++ r.errors.map (fun e => s!"  ❌ {e}"))
    ++ (if r.warnings.isEmpty then []
        else (if r.errors.isEmpty then [""] else [])
             ++ ["  Warnings:"]
             ++ r.warnings.map (fun w => s!"  ⚠️  {w}"))
    ++ [""]

/-- `CheckResult.report`: the printed lines and the returned exit code. -/
def CheckResult.report (r : CheckResult) : List String × Nat :=
  (r.reportLines, if r.errors.isEmpty then 0 else 1)

/-- The header line that `report` prints when at least one error exists. -/
def CheckResult.headerLine (r : CheckResult) : String :=
  s!"  {r.hook_name}: {r.errors.length} error(s) found"

/-! ## Python syntax trees

The fragment of the CPython `ast` node set that the hooks inspect.  Nodes the
hooks never distinguish are collapsed into the catch-all constructors
`PyExpr.exprs` (any other expression, with its child expressions) and
`PyStmt.other` (any other statement, with its child expressions and child
statements); both are handled by the hooks only through
`ast.NodeVisitor.generic_visit`, i.e. by visiting their children, which is
what the catch-alls provide.  `line` fields carry `node.lineno` where a hook
prints it.  In `PyStmt.functionDef` / `PyStmt.classDef`, `otherExprs` stands
for the remaining expression children of the real node (decorators, base
classes, annotations, …). -/

/-- An `ast.alias` (one name bound by `import` / `from … import`). -/
structure ImportAlias where
  name : String
  asname : Option String

mutual

inductive PyExpr where
  | constInt (n : Int)
  | constStr (s : String)
  | constOther
  | name (id : String)
  | attr (value : PyExpr) (attrName : String)
  | tuple (elts : List PyExpr) (line : Nat)
  | call (func : PyExpr) (args : List PyExpr) (keywords : List PyKeyword)
         (line : Nat)
  | exprs (children : List PyExpr)

/-- An `ast.keyword`; `arg = none` is `**kwargs` unpacking. -/
inductive PyKeyword where
  | mk (arg : Option String) (value : PyExpr)

end

def PyKeyword.arg : PyKeyword → Option String
  | .mk a _ => a

def PyKeyword.value : PyKeyword → PyExpr
  | .mk _ v => v

inductive PyStmt where
  | exprStmt (value : PyExpr)
  | assign (targets : List PyExpr) (value : PyExpr) (line : Nat)
  | annAssign (target : PyExpr) (value : Option PyExpr) (line : Nat)
  | functionDef (fname : String) (defaults : List PyExpr)
      (kwDefaults : List (Option PyExpr)) (otherExprs : List PyExpr)
      (body : List PyStmt) (line : Nat)
  | classDef (cname : String) (otherExprs : List PyExpr)
      (body : List PyStmt) (line : Nat)
  | importStmt (names : List ImportAlias) (line : Nat)
  | importFrom (module : Option String) (names : List ImportAlias) (line : Nat)
  | other (childExprs : List PyExpr) (childStmts : List PyStmt)

/-- An `ast.Module`: its top-level statement list. -/
abbrev PyModule := List PyStmt

/-! ## Alias resolver (`_utils.get_import_aliases`) -/

/-- Python `dict` assignment `m[k] = v` on an association list: a later
binding shadows an earlier one. -/
def dictInsert (m : List (String × String)) (k v : String) :
    List (String × String) :=
  m ++ [(k, v)]

/-- Python `m.get(k)`: the most recent binding of `k`. -/
def dictGet (m : List (String × String)) (k : String) : Option String :=
  (m.reverse.find? (fun p => p.1 == k)).map (·.2)

/-- `_utils.get_import_aliases` (lines 259-279): one pass over the module's
top-level statements only.  `import a.b as x` binds `x ↦ "a.b"`;
`from m import n as x` binds `x ↦ "m.n"` (star imports contribute
nothing; an absent / empty module part leaves the bare name). -/
def get_import_aliases (tree : PyModule) : List (String × String) :=
  tree.foldl
    (fun m s =>
      match s with
      | .importStmt names _ =>
          names.foldl
            (fun m a => dictInsert m (a.asname.getD a.name) a.name) m
      | .importFrom module names _ =>
          names.foldl
            (fun m a =>
              if a.name == "*" then m
              else
                let mod := module.getD ""
                dictInsert m (a.asname.getD a.name)
                  (if mod == "" then a.name else mod ++ "." ++ a.name)) m
      | _ => m)
    []

/-! ## Decorator matcher (`_utils.is_gf_cell_decorator`) -/

/-- `_utils.is_gf_cell_decorator` (lines 299-319). -/
def is_gf_cell_decorator (decorator : PyExpr)
    (aliases : List (String × String)) : Bool :=
  let node := match decorator with
    | .call f _ _ _ => f
    | _ => decorator
  match node with
  | .attr value a =>
      if a == "cell" then
        match value with
        | .name vid =>
            let resolved := (dictGet aliases vid).getD vid
            strContains resolved "gdsfactory" || vid == "gf"
        | _ => false
      else false
  | .name nid =>
      let resolved := (dictGet aliases nid).getD ""
      (strContains resolved "gdsfactory" && strContains resolved "cell")
      || nid == "cell" || nid == "_cell"
  | _ => false

/-! ## Raw-layer-tuple matcher (`check_no_raw_layers.py`) -/

/-- `check_no_raw_layers._LAYER_KWARG_NAMES` (used only through
membership). -/
def LAYER_KWARG_NAMES : List String :=
  ["layer", "layers", "layer_slab", "layer_pin", "layer_label",
   "layer_heater", "layer_trench", "layer_port", "layer_metal", "layer_via",
   "layers_via_stack1", "layers_via_stack2", "bbox_layers",
   "cladding_layers", "label_layer"]

/-- `check_no_raw_layers.LAYER_SOURCE_FILES`. -/
def LAYER_SOURCE_FILES : List String := ["tech.py", "layers.py", "config.py"]

/-- `isinstance(e, ast.Constant) and isinstance(e.value, int)` for one tuple
element. -/
def isIntConst : PyExpr → Bool
  | .constInt _ => true
  | _ => false

/-- `RawLayerTupleFinder._is_layer_tuple`: exactly two elements, all integer
constants. -/
def is_layer_tuple (elts : List PyExpr) : Bool :=
  elts.length == 2 && elts.all isIntConst

/-- `RawLayerTupleFinder._is_layer_context`: the current keyword-argument
name (`none` when not inside any keyword argument) looks like a layer
argument; no keyword context at all is flagged conservatively. -/
def is_layer_context (kwarg_name : Option String) : Bool :=
  match kwarg_name with
  | none => true
  | some kwarg =>
      LAYER_KWARG_NAMES.contains kwarg
      || strEndsWith kwarg "_layer" || strEndsWith kwarg "_layers"

/-- The error message of `RawLayerTupleFinder.visit_Tuple` (lines 87-90). -/
def rawLayerMsg (fp : String) (line : Nat) (a b : Int) : String :=
  s!"{fp}:{line} raw layer tuple ({a}, {b}) — use LAYER.XXX constant instead"

/-- The mutable visitor fields of `RawLayerTupleFinder`
(`_in_default`, `_in_class_body`, `_kwarg_name`), threaded explicitly. -/
structure RLCtx where
  in_default : Bool
  in_class_body : Bool
  kwarg_name : Option String

mutual

/-- The expression part of `RawLayerTupleFinder`: `visit_Tuple` and
`visit_Call` as written, every other expression via `generic_visit`
(children, context unchanged).  Returns the recorded error messages in
emission order.  Note `visit_Call` visits the positional arguments with the
current context and each keyword value with `_kwarg_name` set to the
keyword's name, and does not visit the callee expression. -/
def rlVisitExpr (fp : String) (ctx : RLCtx) : PyExpr → List String
  | .tuple elts line =>
      if ctx.in_default || ctx.in_class_body then rlVisitExprs fp ctx elts
      else
        (if is_layer_tuple elts && is_layer_context ctx.kwarg_name then
           match elts with
           | [.constInt a, .constInt b] => [rawLayerMsg fp line a b]
           | _ => []
         else []) ++ rlVisitExprs fp ctx elts
  | .call _ args kws _ => rlVisitExprs fp ctx args ++ rlVisitKws fp ctx kws
  | .attr v _ => rlVisitExpr fp ctx v
  | .exprs children => rlVisitExprs fp ctx children
  | .constInt _ => []
  | .constStr _ => []
  | .constOther => []
  | .name _ => []

def rlVisitExprs (fp : String) (ctx : RLCtx) : List PyExpr → List String
  | [] => []
  | e :: t => rlVisitExpr fp ctx e ++ rlVisitExprs fp ctx t

def rlVisitKws (fp : String) (ctx : RLCtx) : List PyKeyword → List String
  | [] => []
  | .mk arg v :: t =>
      rlVisitExpr fp { ctx with kwarg_name := arg } v ++ rlVisitKws fp ctx t

end

mutual

/-- The statement part of `RawLayerTupleFinder`: `visit_FunctionDef` visits
the parameter defaults with `_in_default` set and then the body with it
cleared (decorators and annotations are not visited); `visit_ClassDef`
visits all children with `_in_class_body` set; every other statement is
visited generically. -/
def rlVisitStmt (fp : String) (ctx : RLCtx) : PyStmt → List String
  | .exprStmt e => rlVisitExpr fp ctx e
  | .assign targets v _ => rlVisitExprs fp ctx targets ++ rlVisitExpr fp ctx v
  | .annAssign t v _ =>
      rlVisitExpr fp ctx t
      ++ (match v with | some e => rlVisitExpr fp ctx e | none => [])
  | .functionDef _ defaults kwDefaults _ body _ =>
      rlVisitExprs fp { ctx with in_default := true }
        (defaults ++ kwDefaults.filterMap id)
      ++ rlVisitStmts fp { ctx with in_default := false } body
  | .classDef _ otherExprs body _ =>
      rlVisitExprs fp { ctx with in_class_body := true } otherExprs
      ++ rlVisitStmts fp { ctx with in_class_body := true } body
  | .importStmt _ _ => []
  | .importFrom _ _ _ => []
  | .other es ss => rlVisitExprs fp ctx es ++ rlVisitStmts fp ctx ss

def rlVisitStmts (fp : String) (ctx : RLCtx) : List PyStmt → List String
  | [] => []
  | s :: t => rlVisitStmt fp ctx s ++ rlVisitStmts fp ctx t

end

/-- Running `RawLayerTupleFinder` over a whole parsed file
(`finder.visit(tree)`): all visitor fields start `False` / `None`. -/
def rawLayerFinderRun (fp : String) (tree : PyModule) : List String :=
  rlVisitStmts fp ⟨false, false, none⟩ tree

/-! ## Filesystem model and structure resolver (`_utils.py`)

A hook reads the filesystem only through a fixed set of questions (does
`tech.py` exist, what does it parse to, which `*.py` files does a directory
hold, …), so a directory is embedded as the answers to those questions.
A file's content is represented by its `parse_file` result
(`Option PyModule`); `Option (Option PyModule)` is "file present?" plus,
when present, its parse result.  Names inside one directory are unique, as
in any real directory listing. -/

/-- A `*.py` file: its base name and its `parse_file` result. -/
structure PyFile where
  name : String
  tree : Option PyModule

/-- The contents of one package directory (the package root or a band)
as the hooks observe them. -/
structure DirData where
  /-- `__init__.py`: present?, and its parse result. -/
  initFile : Option (Option PyModule)
  /-- `tech.py`: present?, and its parse result. -/
  techFile : Option (Option PyModule)
  /-- `cells/`: is it a directory?, and its `*.py` files. -/
  cellsDirFiles : Option (List PyFile)
  /-- flat `cells.py`: present?, and its parse result. -/
  cellsPyFile : Option (Option PyModule)
  /-- `layers.py`: present?, and its parse result. -/
  layersPyFile : Option (Option PyModule)
  /-- `layers.yaml` (or `layers.yml`): present?, and its lines. -/
  layersYamlLines : Option (List String)
  /-- `(d / "models").is_dir() or (d / "models.py").exists()`. -/
  hasModels : Bool
  /-- the direct `*.py` files (the `glob("*.py")` result, unsorted). -/
  pyFiles : List PyFile
  /-- `pdk/`: is it a directory?, and its `*.py` files. -/
  pdkDirFiles : Option (List PyFile)

/-- `(base / "cells").is_dir() or (base / "cells.py").exists()`. -/
def DirData.hasCellsModule (d : DirData) : Bool :=
  d.cellsDirFiles.isSome || d.cellsPyFile.isSome

/-- One direct child of the package directory, as seen by
`find_band_dirs`. -/
structure BandEntry where
  name : String
  isDir : Bool
  data : DirData

/-- The located package directory. -/
structure PkgDir where
  path : String
  name : String
  data : DirData
  entries : List BandEntry

instance : DecidableRel (fun a b : PyFile => pyLe a.name b.name) :=
  fun a b => inferInstanceAs (Decidable (pyStrLe a.name b.name = true))

instance : DecidableRel (fun a b : BandEntry => pyLe a.name b.name) :=
  fun a b => inferInstanceAs (Decidable (pyStrLe a.name b.name = true))

/-- `sorted(...)` over the files of one directory (`Path` order restricted
to one directory is lexicographic order of the base names). -/
def sortPyFiles (fs : List PyFile) : List PyFile :=
  List.insertionSort (fun a b : PyFile => pyLe a.name b.name) fs

/-- `sorted(pkg_dir.iterdir())`. -/
def sortEntries (es : List BandEntry) : List BandEntry :=
  List.insertionSort (fun a b : BandEntry => pyLe a.name b.name) es

/-- `_utils.find_band_dirs` (lines 92-108): the sorted direct
subdirectories, excluding dot/underscore-prefixed names, that have an
`__init__.py` and a cells module or a `tech.py`. -/
def find_band_dirs (p : PkgDir) : List BandEntry :=
  (sortEntries p.entries).filter fun d =>
    d.isDir && !strStartsWith d.name "_" && !strStartsWith d.name "."
    && d.data.initFile.isSome
    && (d.data.hasCellsModule || d.data.techFile.isSome)

/-- `_utils.get_pdk_subdirs` (lines 135-144): the band directories if any,
else the package root, each as (display path, contents). -/
def get_pdk_subdirs (p : PkgDir) : List (String × DirData) :=
  let bands := find_band_dirs p
  if bands.isEmpty then [(p.path, p.data)]
  else bands.map fun b => (p.path ++ "/" ++ b.name, b.data)

/-- A cell file as enumerated by `find_cell_files`: display path, base
name, parse result. -/
structure CellFile where
  path : String
  fname : String
  tree : Option PyModule

/-- The `_collect` helper of `_utils.find_cell_files`: `cells/*.py` sorted
and without `__init__.py` if `cells/` is a directory, else the flat
`cells.py` alone. -/
def collectCellFiles (base : String) (d : DirData) : List CellFile :=
  match d.cellsDirFiles with
  | some fs =>
      ((sortPyFiles fs).filter (fun f => f.name != "__init__.py")).map
        (fun f => ⟨base ++ "/cells/" ++ f.name, f.name, f.tree⟩)
  | none =>
      match d.cellsPyFile with
      | some t => [⟨base ++ "/cells.py", "cells.py", t⟩]
      | none => []

/-- `_utils.find_cell_files` (lines 111-132): root files first, then the
bands in lexicographic order. -/
def find_cell_files (p : PkgDir) : List CellFile :=
  collectCellFiles p.path p.data
  ++ ((find_band_dirs p).map
        (fun b => collectCellFiles (p.path ++ "/" ++ b.name) b.data)).flatten

/-! ## Multi-band consistency check (`check_multi_band.py`) -/

/-- The keys of a band's boolean signature, in the insertion order of the
`sig` dict (dict iteration preserves it). -/
def sigKeys : List String := ["has_cells", "has_tech", "has_models", "has_init"]

/-- The signature value of one key for one band (`check_multi_band.py`
lines 28-33). -/
def bandSig (d : DirData) (key : String) : Bool :=
  if key == "has_cells" then d.hasCellsModule
  else if key == "has_tech" then d.techFile.isSome
  else if key == "has_models" then d.hasModels
  else d.initFile.isSome

/-- The cross-band inconsistency warning (lines 50-53). -/
def inconsistencyMsg (refName key : String) (refVal : Bool)
    (bandName : String) (bandVal : Bool) : String :=
  s!"Inconsistency: {refName} {key}={pyBool refVal} but {bandName} {key}={pyBool bandVal}"

/-- `f"{band}: missing __init__.py"` (`band` prints as
`pkgPath/bandName`). -/
def missingInitMsg (pkgPath bname : String) : String :=
  s!"{pkgPath}/{bname}: missing __init__.py"

/-- `f"{band}: missing cells module (cells/ or cells.py)"`. -/
def missingCellsMsg (pkgPath bname : String) : String :=
  s!"{pkgPath}/{bname}: missing cells module (cells/ or cells.py)"

/-- `f"{band}: missing tech.py"`. -/
def missingTechMsg (pkgPath bname : String) : String :=
  s!"{pkgPath}/{bname}: missing tech.py"

/-- The structural errors of one band (`check_multi_band.py`
lines 36-41): missing `__init__.py`, cells module and `tech.py`, each
checked independently, in that order. -/
def multiBandBandStep (pkgPath : String) (r : CheckResult) (b : BandEntry) :
    CheckResult :=
  let r := if !b.data.initFile.isSome then
      r.error (missingInitMsg pkgPath b.name) else r
  let r := if !b.data.hasCellsModule then
      r.error (missingCellsMsg pkgPath b.name) else r
  if !b.data.techFile.isSome then
    r.error (missingTechMsg pkgPath b.name) else r

/-- The per-band structural errors of `check_multi_band.main`
(lines 27-41), band by band in band order. -/
def multiBandBandChecks (pkgPath : String) (r : CheckResult)
    (bands : List BandEntry) : CheckResult :=
  bands.foldl (multiBandBandStep pkgPath) r

/-- The cross-band comparison warnings (lines 43-53): the first band is the
reference; every later band is compared key by key in `sigKeys` order. -/
def multiBandCrossWarnings (bands : List BandEntry) : List String :=
  match bands with
  | [] => []
  | ref :: rest =>
      (rest.map (fun b =>
        sigKeys.filterMap (fun k =>
          if bandSig b.data k != bandSig ref.data k then
            some (inconsistencyMsg ref.name k (bandSig ref.data k)
                    b.name (bandSig b.data k))
          else none))).flatten

/-- The four accepted test-file locations for one band (lines 60-66). -/
def bandTestPatterns (pkgName bandName : String) : List String :=
  [s!"test_{pkgName}_{bandName}.py", s!"test_{bandName}.py",
   bandName ++ "/test_pdk.py", bandName ++ s!"/test_{pkgName}.py"]

/-- The per-band test-presence warnings (lines 55-72); `testsFiles` is
`none` when `tests/` is not a directory, else the paths existing under
it. -/
def multiBandTestWarnings (pkgName : String) (testsFiles : Option (List String))
    (bands : List BandEntry) : List String :=
  match testsFiles with
  | none => []
  | some fs =>
      bands.filterMap fun b =>
        if (bandTestPatterns pkgName b.name).any (fun pat => fs.contains pat)
        then none
        else some s!"No test file found for band '{b.name}' (expected test_{pkgName}_{b.name}.py or similar)"

/-- The shared-layers warning (lines 74-84). -/
def multiBandLayersWarnings (pkgPath : String) (bands : List BandEntry) :
    List String :=
  let layersInBands :=
    (bands.filter (fun b => b.data.layersPyFile.isSome)).map (·.name)
  if layersInBands.length > 1 then
    [s!"layers.py found in multiple bands: {pyStrList layersInBands} — consider sharing layers at package root ({pkgPath}/layers.py)"]
  else []

/-- The `CheckResult` built by `check_multi_band.main` when at least two
bands exist. -/
def multiBandResult (p : PkgDir) (testsFiles : Option (List String)) :
    CheckResult :=
  let bands := find_band_dirs p
  let r := multiBandBandChecks p.path (CheckResult.new "check-multi-band") bands
  { r with warnings := r.warnings
      ++ multiBandCrossWarnings bands
      ++ multiBandTestWarnings p.name testsFiles bands
      ++ multiBandLayersWarnings p.path bands }

/-- `check_multi_band.main`: returns 0 with no output when the package is
not located or fewer than two bands exist; otherwise reports. -/
def check_multi_band_main (pkg : Option PkgDir)
    (testsFiles : Option (List String)) : List String × Nat :=
  match pkg with
  | none => ([], 0)
  | some p =>
      if (find_band_dirs p).length < 2 then ([], 0)
      else (multiBandResult p testsFiles).report

/-! ## Tech-structure check (`check_tech_structure.py`) -/

/-- The elements of the set literal `check_tech_structure.REQUIRED_NAMES`,
in source order.  The check *iterates* this set, so emission order is
CPython's set-iteration order; functions below take the order as an
explicit argument (any permutation of these elements). -/
def REQUIRED_NAMES : List String :=
  ["LAYER", "LAYER_STACK", "LAYER_VIEWS", "cross_sections"]

/-- The elements of `check_tech_structure.RECOMMENDED_NAMES`. -/
def RECOMMENDED_NAMES : List String := ["routing_strategies"]

/-- `check_tech_structure.collect_defined_names` (lines 16-38), reduced to
its key set (the line numbers it stores are never read by the check). -/
def collect_defined_names (tree : PyModule) : List String :=
  tree.foldl
    (fun acc s =>
      match s with
      | .assign targets _ _ =>
          acc ++ targets.filterMap (fun t =>
            match t with | .name nid => some nid | _ => none)
      | .annAssign (.name nid) _ _ => acc ++ [nid]
      | .classDef c _ _ _ => acc ++ [c]
      | .functionDef f _ _ _ _ _ => acc ++ [f]
      | .importStmt names _ =>
          acc ++ names.filterMap (fun a =>
            if a.name == "*" then none else some (a.asname.getD a.name))
      | .importFrom _ names _ =>
          acc ++ names.filterMap (fun a =>
            if a.name == "*" then none else some (a.asname.getD a.name))
      | _ => acc)
    []

/-- The errors recorded by `check_tech_structure.check_tech_file`
(lines 43-52): a parse failure is recorded as an *error*; otherwise one
error per missing required name, in `reqOrder` (the set-iteration
order). -/
def techFileErrors (reqOrder : List String) (techPath : String)
    (tree : Option PyModule) : List String :=
  match tree with
  | none => [s!"{techPath}: could not parse (syntax error)"]
  | some m =>
      let defined := collect_defined_names m
      reqOrder.filterMap (fun n =>
        if defined.contains n then none
        else some s!"{techPath}: required definition '{n}' not found")

/-- The warnings recorded by `check_tech_file` (lines 54-56): one per
missing recommended name (none at all on a parse failure, which returns
early). -/
def techFileWarnings (recOrder : List String) (techPath : String)
    (tree : Option PyModule) : List String :=
  match tree with
  | none => []
  | some m =>
      let defined := collect_defined_names m
      recOrder.filterMap (fun n =>
        if defined.contains n then none
        else some s!"{techPath}: recommended definition '{n}' not found")

/-- `check_tech_structure.check_tech_file` as a `CheckResult` transformer. -/
def check_tech_file (reqOrder recOrder : List String) (techPath : String)
    (tree : Option PyModule) (r : CheckResult) : CheckResult :=
  { r with errors := r.errors ++ techFileErrors reqOrder techPath tree,
           warnings := r.warnings ++ techFileWarnings recOrder techPath tree }

/-- `re.match(r"^(\w+)\s*:", line)` restricted to ASCII word characters:
the captured key of one YAML line, if the line starts with a word run
followed by optional whitespace and a colon. -/
def yamlKeyOfLine (line : String) : Option String :=
  let cs := line.toList
  let w := cs.takeWhile (fun c => c.isAlphanum || c == '_')
  if w.isEmpty then none
  else
    match (cs.drop w.length).dropWhile (·.isWhitespace) with
    | ':' :: _ => some ⟨w⟩
    | _ => none

/-- The `LAYER`-class attribute names collected by
`check_layers_consistency` (lines 89-99): every class definition anywhere
in the tree (`ast.walk`) whose upper-cased name contains `LAYER`
contributes the names bound by the plain and annotated assignments of its
direct body.  `ast.walk` enumerates breadth-first; the result is used only
as a set, so depth-first collection below is equivalent. -/
def layerClassNamesStmts : List PyStmt → List String
  | [] => []
  | s :: rest =>
      (match s with
       | .classDef cname _ body _ =>
           (if strContains (strToUpper cname) "LAYER" then
              body.foldl
                (fun acc item =>
                  match item with
                  | .annAssign (.name nid) _ _ => acc ++ [nid]
                  | .assign targets _ _ =>
                      acc ++ targets.filterMap (fun t =>
                        match t with | .name nid => some nid | _ => none)
                  | _ => acc)
                []
            else [])
           ++ layerClassNamesStmts body
       | .functionDef _ _ _ _ body _ => layerClassNamesStmts body
       | .other _ ss => layerClassNamesStmts ss
       | _ => [])
      ++ layerClassNamesStmts rest

/-- `check_tech_structure.check_layers_consistency` (lines 59-116):
cross-checks the keys of `layers.yaml`/`layers.yml` against the attribute
names of `LAYER` classes found in `layers.py` and `tech.py`; one-sided
names are warnings in each direction, printed as sorted de-duplicated
lists. -/
def check_layers_consistency (dirPath : String) (d : DirData)
    (r : CheckResult) : CheckResult :=
  match d.layersYamlLines with
  | none => r
  | some lines =>
      let yamlLayers := lines.filterMap yamlKeyOfLine
      let codeLayers :=
        (match d.layersPyFile with
         | some (some m) => layerClassNamesStmts m
         | _ => [])
        ++ (match d.techFile with
            | some (some m) => layerClassNamesStmts m
            | _ => [])
      if codeLayers.isEmpty then r
      else
        let onlyInCode := codeLayers.filter (fun n => !yamlLayers.contains n)
        let onlyInYaml := yamlLayers.filter (fun n => !codeLayers.contains n)
        let r := if !onlyInCode.isEmpty then
            r.warn s!"{dirPath}: layers in code but not in layers.yaml: {pyStrList (setSorted onlyInCode)}"
          else r
        if !onlyInYaml.isEmpty then
          r.warn s!"{dirPath}: layers in layers.yaml but not in code: {pyStrList (setSorted onlyInYaml)}"
        else r

/-- The `CheckResult` built by `check_tech_structure.main` once the package
is located (lines 127-135): per package subdirectory, a missing `tech.py`
is an error, otherwise `check_tech_file` then `check_layers_consistency`
run on it. -/
def techStructureResult (reqOrder recOrder : List String) (p : PkgDir) :
    CheckResult :=
  (get_pdk_subdirs p).foldl
    (fun r sub =>
      match sub.2.techFile with
      | none => r.error s!"{sub.1}: tech.py not found"
      | some t =>
          check_layers_consistency sub.1 sub.2
            (check_tech_file reqOrder recOrder (sub.1 ++ "/tech.py") t r))
    (CheckResult.new "check-tech-structure")

/-- `check_tech_structure.main`.  The discovery-failure warning text
reproduces the source byte-for-byte: the source file stores that one string
with a mis-encoded dash (`â€”`). -/
def check_tech_structure_main (reqOrder recOrder : List String)
    (pkg : Option PkgDir) : List String × Nat :=
  match pkg with
  | none =>
      ((CheckResult.new "check-tech-structure").warn
        "Could not find package directory â€” skipping.").report
  | some p => (techStructureResult reqOrder recOrder p).report

/-! ## Pdk-constructor check (`check_pdk_object.py`)

`PdkCallChecker` overrides only `visit_Call`, which first handles the node
and then `generic_visit`s into every child, so the walk is exactly a
pre-order enumeration of all `Call` nodes; the checker's effect is the
concatenation, over the recognized constructor calls in visit order, of the
findings of each call.  The collector below enumerates the calls; the
per-call findings mirror `visit_Call`'s body. -/

/-- One `ast.Call` as seen by `PdkCallChecker.visit_Call`. -/
structure CallNode where
  func : PyExpr
  kws : List PyKeyword
  line : Nat

mutual

/-- All `Call` nodes of an expression in visit (pre-)order: the node
itself, then those inside its callee, positional arguments and keyword
values. -/
def callsInExpr : PyExpr → List CallNode
  | .call f args kws line =>
      ⟨f, kws, line⟩ :: (callsInExpr f ++ callsInExprs args ++ callsInKws kws)
  | .attr v _ => callsInExpr v
  | .tuple elts _ => callsInExprs elts
  | .exprs cs => callsInExprs cs
  | .constInt _ => []
  | .constStr _ => []
  | .constOther => []
  | .name _ => []

def callsInExprs : List PyExpr → List CallNode
  | [] => []
  | e :: t => callsInExpr e ++ callsInExprs t

def callsInKws : List PyKeyword → List CallNode
  | [] => []
  | .mk _ v :: t => callsInExpr v ++ callsInKws t

end

mutual

/-- All `Call` nodes of a statement, in child order. -/
def callsInStmt : PyStmt → List CallNode
  | .exprStmt e => callsInExpr e
  | .assign targets v _ => callsInExprs targets ++ callsInExpr v
  | .annAssign t v _ =>
      callsInExpr t
      ++ (match v with | some e => callsInExpr e | none => [])
  | .functionDef _ defaults kwDefaults otherExprs body _ =>
      callsInExprs (kwDefaults.filterMap id) ++ callsInExprs defaults
      ++ callsInStmts body ++ callsInExprs otherExprs
  | .classDef _ otherExprs body _ =>
      callsInExprs otherExprs ++ callsInStmts body
  | .importStmt _ _ => []
  | .importFrom _ _ _ => []
  | .other es ss => callsInExprs es ++ callsInStmts ss

def callsInStmts : List PyStmt → List CallNode
  | [] => []
  | s :: t => callsInStmt s ++ callsInStmts t

end

/-- The elements of the set literal `check_pdk_object.REQUIRED_KWARGS`, in
source order (always consumed through `sorted`, so iteration order is
immaterial — proved below). -/
def REQUIRED_KWARGS : List String := ["name", "cells", "layers", "cross_sections"]

/-- The elements of `check_pdk_object.RECOMMENDED_KWARGS`. -/
def RECOMMENDED_KWARGS : List String :=
  ["layer_views", "layer_stack", "routing_strategies"]

/-- The names one top-level statement binds from a `get_cells(...)` /
`….get_cells(...)` call (the loop body of
`check_pdk_object._find_get_cells_vars`, lines 27-37). -/
def getCellsVarsOfStmt : PyStmt → List String
  | .assign targets (.call f _ _ _) _ =>
      let isGetCells := match f with
        | .name nid => nid == "get_cells"
        | .attr _ a => a == "get_cells"
        | _ => false
      if isGetCells then
        targets.filterMap (fun t =>
          match t with | .name nid => some nid | _ => none)
      else []
  | _ => []

/-- `check_pdk_object._find_get_cells_vars` (lines 21-38): names assigned
at module level from a `get_cells(...)` / `….get_cells(...)` call.  The
pre-pass runs over the *whole* module before any call is visited
(`main` line 148), so an assignment textually after a constructor call
contributes just like one before it. -/
def find_get_cells_vars (tree : PyModule) : List String :=
  (tree.map getCellsVarsOfStmt).flatten

/-- `PdkCallChecker._is_pdk_constructor` (lines 93-99). -/
def is_pdk_constructor (aliases : List (String × String)) : PyExpr → Bool
  | .name nid =>
      nid == "Pdk" || strContains ((dictGet aliases nid).getD nid) "Pdk"
  | .attr _ a => a == "Pdk"
  | _ => false

/-- `PdkCallChecker._is_get_cells_value` (lines 101-113). -/
def is_get_cells_value (vars : List String) : PyExpr → Bool
  | .call (.name nid) _ _ _ => nid == "get_cells"
  | .call (.attr _ a) _ _ _ => a == "get_cells"
  | .call _ _ _ _ => false
  | .name nid => vars.contains nid
  | _ => false

/-- `{kw.arg for kw in node.keywords if kw.arg is not None}` (used through
membership only). -/
def kwargNames (kws : List PyKeyword) : List String := kws.filterMap (·.arg)

/-- `sorted(REQUIRED_KWARGS - kwarg_names)`, with the set difference taken
over `order` (any iteration order of the set — `sorted` cancels it). -/
def pdkMissingOf (order : List String) (kws : List PyKeyword) : List String :=
  sortStrings (order.filter (fun k => !(kwargNames kws).contains k))

/-- The error list of one recognized constructor call (lines 67-73):
one error listing the sorted missing required names, or nothing. -/
def errsOfPdkCall (fp : String) (c : CallNode) : List String :=
  let missing := pdkMissingOf REQUIRED_KWARGS c.kws
  if missing.isEmpty then []
  else [s!"{fp}:{c.line} Pdk() missing required kwargs: {pyStrList missing}"]

/-- The warning list of one recognized constructor call (lines 75-89):
one warning listing the sorted missing recommended names if any, then one
warning per `cells=` keyword whose value is not a `get_cells()` result. -/
def warnsOfPdkCall (fp : String) (vars : List String) (c : CallNode) :
    List String :=
  (let missingRec := pdkMissingOf RECOMMENDED_KWARGS c.kws
   if missingRec.isEmpty then []
   else [s!"{fp}:{c.line} Pdk() missing recommended kwargs: {pyStrList missingRec}"])
  ++ c.kws.filterMap (fun kw =>
      if kw.arg == some "cells" && !is_get_cells_value vars kw.value then
        some s!"{fp}:{c.line} Pdk(cells=...) should use get_cells() for dynamic cell discovery"
      else none)

/-- The recognized constructor calls of one parsed file, in visit order. -/
def pdkRecognizedCalls (m : PyModule) : List CallNode :=
  (callsInStmts m).filter (fun c => is_pdk_constructor (get_import_aliases m) c.func)

/-- Running `PdkCallChecker` over one parsed file: its recorded errors,
recorded warnings, and `found_pdk_call`. -/
def pdkCheckFile (fp : String) (m : PyModule) :
    List String × List String × Bool :=
  let recog := pdkRecognizedCalls m
  ((recog.map (errsOfPdkCall fp)).flatten,
   (recog.map (warnsOfPdkCall fp (find_get_cells_vars m))).flatten,
   !recog.isEmpty)

/-- The candidate list of `check_pdk_object.main` for one subdirectory
(lines 128-135): `__init__.py` first, then the sorted direct `*.py` files,
then the sorted files of a `pdk/` subdirectory when present.  Each entry is
(path, `none` if the path does not exist, else its parse result). -/
def pdkCandidateList (subPath : String) (d : DirData) :
    List (String × Option (Option PyModule)) :=
  [(subPath ++ "/__init__.py",
    (d.pyFiles.find? (fun f => f.name == "__init__.py")).map (·.tree))]
  ++ (sortPyFiles d.pyFiles).map (fun f => (subPath ++ "/" ++ f.name, some f.tree))
  ++ (match d.pdkDirFiles with
      | some fs =>
          (sortPyFiles fs).map (fun f => (subPath ++ "/pdk/" ++ f.name, some f.tree))
      | none => [])

/-- The `seen` filter of `check_pdk_object.main` (lines 137-141): skip
candidates that do not exist or were already processed. -/
def dedupCandidates :
    List (String × Option (Option PyModule)) → List String →
    List (String × Option PyModule)
  | [], _ => []
  | (p, t?) :: rest, seen =>
      match t? with
      | none => dedupCandidates rest seen
      | some t =>
          if seen.contains p then dedupCandidates rest seen
          else (p, t) :: dedupCandidates rest (p :: seen)

/-- One iteration of the candidate loop of `check_pdk_object.main`
(lines 138-152): a file that fails to parse is skipped silently; otherwise
the checker's findings are appended and `found_any_pdk` is updated.  The
state is (accumulated `CheckResult`, `found_any_pdk`). -/
def pdkProcessCandidate (acc : CheckResult × Bool)
    (cand : String × Option PyModule) : CheckResult × Bool :=
  match cand.2 with
  | none => acc
  | some m =>
      let res := pdkCheckFile cand.1 m
      ({ acc.1 with
          errors := acc.1.errors ++ res.1,
          warnings := acc.1.warnings ++ res.2.1 },
       acc.2 || res.2.2)

/-- The candidate loop of `check_pdk_object.main` over one subdirectory's
deduplicated candidates. -/
def pdkProcessCandidates (acc : CheckResult × Bool)
    (cands : List (String × Option PyModule)) : CheckResult × Bool :=
  cands.foldl pdkProcessCandidate acc

/-- The `CheckResult` built by `check_pdk_object.main` once the package is
located (lines 124-157): run the checker over every candidate file that
parses, then record one error if no file contained a recognized
constructor call. -/
def pdkObjectResult (p : PkgDir) : CheckResult :=
  let step :=
    (get_pdk_subdirs p).foldl
      (fun acc sub =>
        pdkProcessCandidates acc (dedupCandidates (pdkCandidateList sub.1 sub.2) []))
      (CheckResult.new "check-pdk-object", false)
  if !step.2 then
    step.1.error "No Pdk() constructor call found in any package file"
  else step.1

/-- `check_pdk_object.main`. -/
def check_pdk_object_main (pkg : Option PkgDir) : List String × Nat :=
  match pkg with
  | none =>
      ((CheckResult.new "check-pdk-object").warn
        "Could not find package directory — skipping.").report
  | some p => (pdkObjectResult p).report

/-! ## Raw-layer and package-init entry points -/

/-- One iteration of the cell-file loop of `check_no_raw_layers.main`
(lines 124-133): skip layer-source file names, skip files that fail to
parse (silently — no finding), run the finder on the rest. -/
def rawLayersProcessFile (r : CheckResult) (cf : CellFile) : CheckResult :=
  if LAYER_SOURCE_FILES.contains cf.fname then r
  else
    match cf.tree with
    | none => r
    | some m => { r with errors := r.errors ++ rawLayerFinderRun cf.path m }

/-- The cell-file loop of `check_no_raw_layers.main`. -/
def rawLayersProcessFiles (r : CheckResult) (cfs : List CellFile) :
    CheckResult :=
  cfs.foldl rawLayersProcessFile r

/-- The `CheckResult` built by `check_no_raw_layers.main` once the package
is located (lines 122-135). -/
def rawLayersResult (p : PkgDir) : CheckResult :=
  rawLayersProcessFiles (CheckResult.new "check-no-raw-layers")
    (find_cell_files p)

/-- `check_no_raw_layers.main`: returns 0 with no output when the package
is not located. -/
def check_no_raw_layers_main (pkg : Option PkgDir) : List String × Nat :=
  match pkg with
  | none => ([], 0)
  | some p => (rawLayersResult p).report

/-- `_utils.find_assignments` (lines 204-212), reduced to the matching
top-level `Assign` nodes as (targets, value) pairs (the hooks use the
result only through emptiness and a first-match scan). -/
def find_assignments (tree : PyModule) (nm : String) :
    List (List PyExpr × PyExpr) :=
  tree.filterMap (fun s =>
    match s with
    | .assign targets v _ =>
        if targets.any (fun t =>
            match t with | .name nid => nid == nm | _ => false) then
          some (targets, v)
        else none
    | _ => none)

/-- `_utils.get_assigned_string` (lines 215-222): the first matching
assignment whose value is a string constant. -/
def get_assigned_string (tree : PyModule) (nm : String) : Option String :=
  (find_assignments tree nm).findSome? (fun a =>
    match a.2 with | .constStr s => some s | _ => none)

/-- The `CheckResult` built by `check_package_init.main` once the package
is located (lines 24-47). -/
def packageInitResult (p : PkgDir) : CheckResult :=
  let r := CheckResult.new "check-package-init"
  let initPath := p.path ++ "/__init__.py"
  match p.data.initFile with
  | none => r.error s!"{initPath} does not exist"
  | some none => r.error s!"{initPath} has syntax errors"
  | some (some m) =>
      let r :=
        match get_assigned_string m "__version__" with
        | some _ => r
        | none =>
            if !(find_assignments m "__version__").isEmpty then
              r.error (s!"{initPath}: __version__ is defined but not as a string literal "
                ++ "(must be __version__ = \"X.Y.Z\")")
            else r.error s!"{initPath}: __version__ is not defined"
      if (find_assignments m "__all__").isEmpty then
        r.error s!"{initPath}: __all__ is not defined"
      else r

/-- `check_package_init.main`. -/
def check_package_init_main (pkg : Option PkgDir) : List String × Nat :=
  match pkg with
  | none =>
      ((CheckResult.new "check-package-init").warn
        "Could not find package directory — skipping.").report
  | some p => (packageInitResult p).report

/-! ## Fixtures

Concrete inputs used by witnesses and counterexamples. -/

/-- A directory with nothing in it. -/
def emptyDirData : DirData :=
  ⟨none, none, none, none, none, none, false, [], none⟩

/-- A run that recorded one warning and no errors. -/
def onlyWarningsRun : CheckResult :=
  (CheckResult.new "check-multi-band").warn
    "No test file found for band 'a' (expected test_pkg_a.py or similar)"

/-- `import gdsfactory as fw` at top level. -/
def exImportFw : PyModule := [.importStmt [⟨"gdsfactory", some "fw"⟩] 1]

/-- `from gdsfactory import cell` at top level. -/
def exFromImportCell : PyModule :=
  [.importFrom (some "gdsfactory") [⟨"cell", none⟩] 1]

/-- A module whose only import sits inside a function body. -/
def exNestedImport : PyModule :=
  [.functionDef "helper" [] [] [] [.importStmt [⟨"gdsfactory", some "fw"⟩] 2] 1]

/-! ## Claims -/

/-- C1: `CheckResult.report` prints nothing and returns 0 when no errors
and no warnings were recorded; otherwise it returns 1 exactly when at
least one error was recorded, so warnings alone never produce a nonzero
exit code. -/
theorem C1_report_contract (r : CheckResult) :
    (r.errors = [] ∧ r.warnings = [] → r.report = ([], 0))
    ∧ (r.errors ≠ [] → r.report.2 = 1)
    ∧ (r.errors = [] → r.report.2 = 0) := by
  refine ⟨fun h => ?_, fun h => ?_, fun h => ?_⟩
  · simp [CheckResult.report, CheckResult.reportLines, h.1, h.2]
  · simp [CheckResult.report, h]
  · simp [CheckResult.report, h]

/-- Witness for C1 at three concrete runs: empty, one error, one
warning. -/
theorem C1_report_contract_witness :
    ((CheckResult.new "check-demo").report = ([], 0))
    ∧ (((CheckResult.new "check-demo").error "boom").report.2 = 1)
    ∧ (((CheckResult.new "check-demo").warn "careful").report.2 = 0) :=
  ⟨(C1_report_contract (CheckResult.new "check-demo")).1 ⟨rfl, rfl⟩,
   (C1_report_contract ((CheckResult.new "check-demo").error "boom")).2.1
     (by decide),
   (C1_report_contract ((CheckResult.new "check-demo").warn "careful")).2.2
     rfl⟩

/-- C5 counterexample: a run holding one warning and no errors prints
lines none of which mention the hook's name, so the claimed header naming
the check is *not* printed when only warnings exist. -/
theorem C5_counterexample :
    onlyWarningsRun.warnings ≠ []
    ∧ onlyWarningsRun.reportLines ≠ []
    ∧ onlyWarningsRun.reportLines.all
        (fun line => !strContains line onlyWarningsRun.hook_name) = true := by
  decide

/-- C5 (amended): when at least one error exists, the report prints the
header naming the check and the error count, then all errors, then the
warnings under their own heading; when only warnings exist it prints only
the `Warnings:` heading and the warnings, without any header naming the
check. -/
theorem C5_report_layout (r : CheckResult) :
    (r.errors ≠ [] →
      r.reportLines
        = ["", eqBar, r.headerLine, eqBar]
          ++ r.errors.map (fun e => s!"  ❌ {e}")
          ++ (if r.warnings.isEmpty then []
              else "  Warnings:" :: r.warnings.map (fun w => s!"  ⚠️  {w}"))
          ++ [""])
    ∧ (r.errors = [] → r.warnings ≠ [] →
      r.reportLines
        = ["", "  Warnings:"] ++ r.warnings.map (fun w => s!"  ⚠️  {w}")
          ++ [""]) := by
  refine ⟨fun h => ?_, fun h h' => ?_⟩
  · simp [CheckResult.reportLines, CheckResult.headerLine, h]
  · simp [CheckResult.reportLines, h, h']

/-- Witness for C5's amended layout at one error-run and one
warnings-only run. -/
theorem C5_report_layout_witness :
    ((CheckResult.new "check-demo").error "boom").reportLines
      = ["", eqBar, "  check-demo: 1 error(s) found", eqBar, "  ❌ boom", ""]
    ∧ ((CheckResult.new "check-demo").warn "careful").reportLines
      = ["", "  Warnings:", "  ⚠️  careful", ""] := by
  refine ⟨?_, ?_⟩
  · exact ((C5_report_layout ((CheckResult.new "check-demo").error "boom")).1
      (by decide)).trans (by decide)
  · exact ((C5_report_layout ((CheckResult.new "check-demo").warn "careful")).2
      rfl (by decide)).trans (by decide)

/-- C7: with `import gdsfactory as fw` at top level, `@fw.cell` and
`@fw.cell(...)` are recognized as the designated cell decorator; with
`from gdsfactory import cell`, bare `@cell` is recognized; and the alias
map is built from top-level imports only (an import nested in a function
contributes nothing). -/
theorem C7_alias_decorator_recognition :
    get_import_aliases exImportFw = [("fw", "gdsfactory")]
    ∧ is_gf_cell_decorator (.attr (.name "fw") "cell")
        (get_import_aliases exImportFw) = true
    ∧ is_gf_cell_decorator
        (.call (.attr (.name "fw") "cell") [] [.mk (some "autoname") .constOther] 3)
        (get_import_aliases exImportFw) = true
    ∧ get_import_aliases exFromImportCell = [("cell", "gdsfactory.cell")]
    ∧ is_gf_cell_decorator (.name "cell")
        (get_import_aliases exFromImportCell) = true
    ∧ get_import_aliases exNestedImport = [] := by
  decide

/-- C8: when package discovery returns no result, every package-dependent
check returns exit code 0 with at most one "could not locate package"
warning and no error: `check_no_raw_layers` and `check_multi_band` are
completely silent, while `check_pdk_object`, `check_package_init` and
`check_tech_structure` print exactly the single skip warning
(`check_tech_structure`'s warning text carries the source file's
mis-encoded dash). -/
theorem C8_discovery_failure_degrades :
    check_no_raw_layers_main none = ([], 0)
    ∧ (∀ testsFiles, check_multi_band_main none testsFiles = ([], 0))
    ∧ check_pdk_object_main none
        = (["", "  Warnings:",
            "  ⚠️  Could not find package directory — skipping.",
            ""], 0)
    ∧ check_package_init_main none
        = (["", "  Warnings:",
            "  ⚠️  Could not find package directory — skipping.",
            ""], 0)
    ∧ (∀ reqOrder recOrder,
        check_tech_structure_main reqOrder recOrder none
          = (["", "  Warnings:",
              "  ⚠️  Could not find package directory â€” skipping.",
              ""], 0)) := by
  refine ⟨rfl, fun _ => rfl, by decide, by decide, fun _ _ => rfl⟩

/-- Visiting a list of integer-constant expressions records nothing. -/
theorem rlVisitExprs_of_ints (fp : String) (ctx : RLCtx) :
    ∀ elts : List PyExpr, elts.all isIntConst = true →
      rlVisitExprs fp ctx elts = [] := by
  intro elts h
  induction elts with
  | nil => simp [rlVisitExprs]
  | cons e t ih =>
      simp only [List.all_cons, Bool.and_eq_true] at h
      obtain ⟨he, ht⟩ := h
      cases e <;> simp_all [isIntConst, rlVisitExprs, rlVisitExpr]

/-- C3: the visitor flags a two-element all-integer tuple exactly when it
is outside parameter-default and class-body context and the current
keyword context is a layer context (a layer-bearing keyword name, a
`_layer`/`_layers` suffix, or no keyword context at all), emitting the one
error that names the line and both values; and on the three reference
programs: `make(length=10, layer=(1, 0))` yields exactly that one error,
`make(size=(1, 0))` yields no finding, and a bare `(1, 0)` yields one
finding. -/
theorem C3_raw_layer_tuple_decision :
    (∀ (fp : String) (ctx : RLCtx) (elts : List PyExpr) (line : Nat),
        is_layer_tuple elts = true →
        rlVisitExpr fp ctx (.tuple elts line)
          = (if !ctx.in_default && !ctx.in_class_body
                && is_layer_context ctx.kwarg_name then
               match elts with
               | [.constInt a, .constInt b] => [rawLayerMsg fp line a b]
               | _ => []
             else []))
    ∧ rawLayerFinderRun "cells/make.py"
        [.exprStmt (.call (.name "make") []
          [.mk (some "length") (.constInt 10),
           .mk (some "layer") (.tuple [.constInt 1, .constInt 0] 3)] 3)]
        = [rawLayerMsg "cells/make.py" 3 1 0]
    ∧ rawLayerFinderRun "cells/make.py"
        [.exprStmt (.call (.name "make") []
          [.mk (some "size") (.tuple [.constInt 1, .constInt 0] 3)] 3)]
        = []
    ∧ rawLayerFinderRun "cells/make.py"
        [.exprStmt (.tuple [.constInt 1, .constInt 0] 1)]
        = [rawLayerMsg "cells/make.py" 1 1 0] := by
  refine ⟨?_, by decide, by decide, by decide⟩
  intro fp ctx elts line h
  have hall : elts.all isIntConst = true := by
    simp only [is_layer_tuple, Bool.and_eq_true] at h
    exact h.2
  have hrec := rlVisitExprs_of_ints fp ctx elts hall
  rcases hd : ctx.in_default <;> rcases hc : ctx.in_class_body <;>
    simp [rlVisitExpr, hd, hc, h, hrec]

/-- Witness for C3's decision rule: a layer tuple under the `layer=`
keyword context is flagged, under `size=` it is not. -/
theorem C3_raw_layer_tuple_decision_witness :
    rlVisitExpr "w.py" ⟨false, false, some "layer"⟩
        (.tuple [.constInt 2, .constInt 7] 9)
      = [rawLayerMsg "w.py" 9 2 7]
    ∧ rlVisitExpr "w.py" ⟨false, false, some "size"⟩
        (.tuple [.constInt 2, .constInt 7] 9)
      = [] := by
  refine ⟨?_, ?_⟩
  · exact (C3_raw_layer_tuple_decision.1 "w.py" ⟨false, false, some "layer"⟩
      [.constInt 2, .constInt 7] 9 (by decide)).trans (by decide)
  · exact (C3_raw_layer_tuple_decision.1 "w.py" ⟨false, false, some "size"⟩
      [.constInt 2, .constInt 7] 9 (by decide)).trans (by decide)

/-- A constructor call carrying every keyword except `cross_sections`
(`cells=` bound to a `get_cells()` call). -/
def pdkOneMissingTree : PyModule :=
  [.exprStmt (.call (.name "Pdk") []
    [.mk (some "name") (.constStr "demo"),
     .mk (some "cells") (.call (.name "get_cells") [.name "cells"] [] 4),
     .mk (some "layers") (.name "LAYER"),
     .mk (some "layer_views") (.name "LAYER_VIEWS"),
     .mk (some "layer_stack") (.name "LAYER_STACK"),
     .mk (some "routing_strategies") (.name "routing_strategies")] 4)]

/-- A recognized constructor call missing `cross_sections` and all
recommended keywords, with `cells=` bound to a plain variable. -/
def pdkSparseCall : CallNode :=
  ⟨.name "Pdk",
   [.mk (some "name") (.constStr "demo"),
    .mk (some "cells") (.name "raw_dict"),
    .mk (some "layers") (.name "LAYER")], 4⟩

/-- A module whose constructor call (inside a function, carrying every
required and recommended keyword, `cells=_cells`) textually *precedes*
the module-level assignment `_cells = get_cells(cells)`. -/
def pdkForwardRefTree : PyModule :=
  [.functionDef "build_pdk" [] [] []
     [.exprStmt (.call (.name "Pdk") []
        [.mk (some "name") (.constStr "demo"),
         .mk (some "cells") (.name "_cells"),
         .mk (some "layers") (.name "LAYER"),
         .mk (some "cross_sections") (.name "cross_sections"),
         .mk (some "layer_views") (.name "LAYER_VIEWS"),
         .mk (some "layer_stack") (.name "LAYER_STACK"),
         .mk (some "routing_strategies") (.name "routing_strategies")] 3)]
     2,
   .assign [.name "_cells"] (.call (.name "get_cells") [.name "cells"] [] 7) 7]

/-- C4 counterexample: in `pdkForwardRefTree` the only `get_cells`
assignment appears *after* the statement holding the constructor call
(the statements preceding and including the call contribute no variable,
first two conjuncts), so the `cells=` argument is a variable that is not
*previously* assigned from `get_cells(...)` and the claim demands a
warning — yet the checker, whose variable pre-pass scans the whole file
(third conjunct), emits no finding at all for the file (fourth
conjunct). -/
theorem C4_counterexample :
    find_get_cells_vars (pdkForwardRefTree.take 1) = []
    ∧ is_get_cells_value [] (.name "_cells") = false
    ∧ find_get_cells_vars pdkForwardRefTree = ["_cells"]
    ∧ pdkCheckFile "mypkg/__init__.py" pdkForwardRefTree = ([], [], true) := by
  decide

/-- C4 (amended): for a recognized constructor call, the missing-required
list holds exactly the required names absent from the call's keywords, in
sorted order; a nonempty missing set yields exactly one error listing it
and an empty one yields no error; absent recommended names yield the one
sorted recommended warning; a `cells=` keyword whose value is not a
`get_cells()` result — directly or via a variable assigned from
`get_cells(...)` *anywhere* at module level: the pre-pass scans the whole
file, so assignments textually after the call count too and a
forward-referenced variable draws no warning — yields the cells warning;
every recorded error is the missing-required error, so the cells check
never records an error; the call missing only `cross_sections` produces
exactly one error listing only that name; the variable pre-pass is
position-blind (membership depends only on which statements the module
contains); and the forward-reference module yields no finding. -/
theorem C4_pdk_constructor_call_findings :
    (∀ (c : CallNode) (n : String),
        n ∈ pdkMissingOf REQUIRED_KWARGS c.kws ↔
          n ∈ REQUIRED_KWARGS ∧ n ∉ kwargNames c.kws)
    ∧ (∀ (c : CallNode),
        (pdkMissingOf REQUIRED_KWARGS c.kws).Sorted pyLe)
    ∧ (∀ (fp : String) (c : CallNode),
        pdkMissingOf REQUIRED_KWARGS c.kws ≠ [] →
        errsOfPdkCall fp c
          = [s!"{fp}:{c.line} Pdk() missing required kwargs: {pyStrList (pdkMissingOf REQUIRED_KWARGS c.kws)}"])
    ∧ (∀ (fp : String) (c : CallNode),
        pdkMissingOf REQUIRED_KWARGS c.kws = [] → errsOfPdkCall fp c = [])
    ∧ (∀ (fp : String) (vars : List String) (c : CallNode),
        pdkMissingOf RECOMMENDED_KWARGS c.kws ≠ [] →
        s!"{fp}:{c.line} Pdk() missing recommended kwargs: {pyStrList (pdkMissingOf RECOMMENDED_KWARGS c.kws)}"
          ∈ warnsOfPdkCall fp vars c)
    ∧ (∀ (fp : String) (vars : List String) (c : CallNode) (kw : PyKeyword),
        kw ∈ c.kws → kw.arg = some "cells" →
        is_get_cells_value vars kw.value = false →
        s!"{fp}:{c.line} Pdk(cells=...) should use get_cells() for dynamic cell discovery"
          ∈ warnsOfPdkCall fp vars c)
    ∧ (∀ (fp : String) (c : CallNode) (e : String),
        e ∈ errsOfPdkCall fp c →
        e = s!"{fp}:{c.line} Pdk() missing required kwargs: {pyStrList (pdkMissingOf REQUIRED_KWARGS c.kws)}")
    ∧ pdkCheckFile "mypkg/__init__.py" pdkOneMissingTree
        = (["mypkg/__init__.py:4 Pdk() missing required kwargs: ['cross_sections']"],
           [], true)
    ∧ (∀ (tree : PyModule) (n : String),
        n ∈ find_get_cells_vars tree ↔ ∃ s ∈ tree, n ∈ getCellsVarsOfStmt s)
    ∧ pdkCheckFile "mypkg/__init__.py" pdkForwardRefTree = ([], [], true) := by
  refine ⟨?_, ?_, ?_, ?_, ?_, ?_, ?_, by decide, ?_, by decide⟩
  · intro c n
    unfold pdkMissingOf sortStrings
    rw [(List.perm_insertionSort _ _).mem_iff, List.mem_filter]
    simp
  · intro c
    exact List.sorted_insertionSort _ _
  · intro fp c h
    simp [errsOfPdkCall, h]
  · intro fp c h
    simp [errsOfPdkCall, h]
  · intro fp vars c h
    simp only [warnsOfPdkCall]
    rw [List.mem_append]
    left
    simp [h]
  · intro fp vars c kw hmem harg hval
    simp only [warnsOfPdkCall]
    rw [List.mem_append]
    right
    exact List.mem_filterMap.mpr ⟨kw, hmem, by simp [harg, hval]⟩
  · intro fp c e he
    by_cases h : pdkMissingOf REQUIRED_KWARGS c.kws = []
    · simp [errsOfPdkCall, h] at he
    · simp [errsOfPdkCall, h] at he
      exact he
  · intro tree n
    simp [find_get_cells_vars]

/-- Witness for C4 at the sparse call: one error listing only
`cross_sections`, the sorted recommended warning, and the cells warning
are all produced. -/
theorem C4_pdk_constructor_call_findings_witness :
    errsOfPdkCall "w.py" pdkSparseCall
      = [s!"w.py:4 Pdk() missing required kwargs: {pyStrList (pdkMissingOf REQUIRED_KWARGS pdkSparseCall.kws)}"]
    ∧ (s!"w.py:4 Pdk() missing recommended kwargs: {pyStrList (pdkMissingOf RECOMMENDED_KWARGS pdkSparseCall.kws)}"
        ∈ warnsOfPdkCall "w.py" [] pdkSparseCall)
    ∧ (s!"w.py:4 Pdk(cells=...) should use get_cells() for dynamic cell discovery"
        ∈ warnsOfPdkCall "w.py" [] pdkSparseCall)
    ∧ pyStrList (pdkMissingOf REQUIRED_KWARGS pdkSparseCall.kws)
      = "['cross_sections']" := by
  refine ⟨?_, ?_, ?_, by decide⟩
  · exact C4_pdk_constructor_call_findings.2.2.1 "w.py" pdkSparseCall (by decide)
  · exact C4_pdk_constructor_call_findings.2.2.2.2.1 "w.py" [] pdkSparseCall
      (by decide)
  · exact C4_pdk_constructor_call_findings.2.2.2.2.2.1 "w.py" []
      pdkSparseCall (.mk (some "cells") (.name "raw_dict"))
      (by simp [pdkSparseCall]) rfl (by decide)

/-- A located package whose `tech.py` exists but has a syntax error. -/
def techBadPkg : PkgDir :=
  ⟨"mypkg", "mypkg",
   { emptyDirData with
      initFile := some (some [])
      techFile := some none },
   []⟩

/-- A cell file with a syntax error. -/
def badCF : CellFile := ⟨"mypkg/cells/bad.py", "bad.py", none⟩

/-- A cell file holding one bare raw layer tuple. -/
def goodCF : CellFile :=
  ⟨"mypkg/cells/good.py", "good.py",
   some [.exprStmt (.tuple [.constInt 1, .constInt 0] 1)]⟩

/-- A located package whose `cells/` holds one unparseable file and one
parseable file with a raw layer tuple. -/
def rawMixedPkg : PkgDir :=
  ⟨"mypkg", "mypkg",
   { emptyDirData with
      initFile := some (some [])
      cellsDirFiles := some [⟨"bad.py", none⟩, ⟨"good.py", goodCF.tree⟩] },
   []⟩

/-- C2 counterexample: on a package whose `tech.py` has invalid syntax,
`check_tech_structure` records an *error* for that file (and no warning);
and on a package with an unparseable cell file, `check_no_raw_layers`
completes, still processes the other file, but emits *no* warning for the
broken one.  Both contradict "a warning — never an error — is emitted". -/
theorem C2_counterexample :
    (techStructureResult REQUIRED_NAMES RECOMMENDED_NAMES techBadPkg).errors
      = ["mypkg/tech.py: could not parse (syntax error)"]
    ∧ (techStructureResult REQUIRED_NAMES RECOMMENDED_NAMES techBadPkg).warnings
      = []
    ∧ (rawLayersResult rawMixedPkg).errors
      = [rawLayerMsg "mypkg/cells/good.py" 1 1 0]
    ∧ (rawLayersResult rawMixedPkg).warnings = [] := by
  decide

/-- A file that fails to parse leaves the raw-layers loop state
unchanged. -/
theorem rawLayersProcessFile_none (r : CheckResult) (cf : CellFile)
    (h : cf.tree = none) : rawLayersProcessFile r cf = r := by
  unfold rawLayersProcessFile
  rw [h]
  split <;> rfl

/-- C2 (amended): a candidate file with invalid syntax never aborts a run
and never affects the findings of other files — it is skipped for that
check; but the finding emitted for it differs by check:
`check_no_raw_layers` and `check_pdk_object` skip it silently with no
finding at all, while `check_tech_structure` records an *error* (and no
warning) for an unparseable `tech.py`. -/
theorem C2_parse_failure_handling :
    (∀ (r : CheckResult) (cfs₁ cfs₂ : List CellFile) (cf : CellFile),
        cf.tree = none →
        rawLayersProcessFiles r (cfs₁ ++ cf :: cfs₂)
          = rawLayersProcessFiles r (cfs₁ ++ cfs₂))
    ∧ (∀ (acc : CheckResult × Bool)
         (cs₁ cs₂ : List (String × Option PyModule)) (path : String),
        pdkProcessCandidates acc (cs₁ ++ (path, none) :: cs₂)
          = pdkProcessCandidates acc (cs₁ ++ cs₂))
    ∧ (∀ (reqOrder recOrder : List String) (techPath : String)
         (r : CheckResult),
        (check_tech_file reqOrder recOrder techPath none r).errors
          = r.errors ++ [s!"{techPath}: could not parse (syntax error)"]
        ∧ (check_tech_file reqOrder recOrder techPath none r).warnings
          = r.warnings) := by
  refine ⟨fun r cfs₁ cfs₂ cf h => ?_, fun acc cs₁ cs₂ path => ?_,
    fun reqOrder recOrder techPath r => ⟨rfl, ?_⟩⟩
  · unfold rawLayersProcessFiles
    rw [List.foldl_append, List.foldl_append, List.foldl_cons,
      rawLayersProcessFile_none _ cf h]
  · unfold pdkProcessCandidates
    rw [List.foldl_append, List.foldl_append, List.foldl_cons]
    rfl
  · simp [check_tech_file, techFileWarnings]

/-- Witness for C2's amended behaviour: dropping the unparseable cell file
leaves the raw-layers run unchanged, dropping an absent-parse candidate
leaves the constructor check unchanged, and the tech check records the
parse error. -/
theorem C2_parse_failure_handling_witness :
    rawLayersProcessFiles (CheckResult.new "check-no-raw-layers")
        [badCF, goodCF]
      = rawLayersProcessFiles (CheckResult.new "check-no-raw-layers") [goodCF]
    ∧ pdkProcessCandidates (CheckResult.new "check-pdk-object", false)
        [("mypkg/bad.py", none), ("mypkg/ok.py", some [])]
      = pdkProcessCandidates (CheckResult.new "check-pdk-object", false)
        [("mypkg/ok.py", some [])]
    ∧ (check_tech_file REQUIRED_NAMES RECOMMENDED_NAMES "mypkg/tech.py" none
        (CheckResult.new "check-tech-structure")).errors
      = ["mypkg/tech.py: could not parse (syntax error)"] := by
  refine ⟨?_, ?_, ?_⟩
  · exact C2_parse_failure_handling.1 (CheckResult.new "check-no-raw-layers")
      [] [goodCF] badCF rfl
  · exact C2_parse_failure_handling.2.1 (CheckResult.new "check-pdk-object", false)
      [] [("mypkg/ok.py", some [])] "mypkg/bad.py"
  · exact ((C2_parse_failure_handling.2.2 REQUIRED_NAMES RECOMMENDED_NAMES
      "mypkg/tech.py" (CheckResult.new "check-tech-structure")).1).trans
      (by decide)

/-- A located package whose `tech.py` parses but defines nothing. -/
def techEmptyPkg : PkgDir :=
  ⟨"mypkg", "mypkg",
   { emptyDirData with
      initFile := some (some [])
      techFile := some (some []) },
   []⟩

/-- `REQUIRED_NAMES` in another of CPython's possible set-iteration
orders. -/
def reqOrderRev : List String :=
  ["cross_sections", "LAYER_VIEWS", "LAYER_STACK", "LAYER"]

/-- Sorting is invariant under permutation of its input. -/
theorem sortStrings_congr_perm {l l' : List String} (h : l.Perm l') :
    sortStrings l = sortStrings l' :=
  List.eq_of_perm_of_sorted
    ((List.perm_insertionSort pyLe l).trans
      (h.trans (List.perm_insertionSort pyLe l').symm))
    (List.sorted_insertionSort pyLe l) (List.sorted_insertionSort pyLe l')

/-- C9 counterexample: two runs of `check_tech_structure` over one
unchanged package that differ only in the interpreter's iteration order of
the `REQUIRED_NAMES` set (both orders shown are permutations of that set,
and CPython does not fix the order of a string set across interpreter
invocations) print different bytes — the run is not a function of the
input alone, and the order of missing-required-name findings varies. -/
theorem C9_counterexample :
    reqOrderRev.Perm REQUIRED_NAMES
    ∧ check_tech_structure_main reqOrderRev RECOMMENDED_NAMES (some techEmptyPkg)
        ≠ check_tech_structure_main REQUIRED_NAMES RECOMMENDED_NAMES
            (some techEmptyPkg) := by
  constructor <;> decide

/-- C9 (amended): each check's findings are a pure function of the input
plus the interpreter's set-iteration order; the *multiset* of
`check_tech_structure`'s missing-name errors does not depend on that order
(only their printed order does), and `check_pdk_object`'s missing-kwarg
lists, being sorted, are literally identical for every iteration
order — so within one interpreter process repeated runs are byte-identical,
but across processes only the sorted emissions are. -/
theorem C9_order_dependence :
    (∀ (o : List String), o.Perm REQUIRED_NAMES →
      ∀ (techPath : String) (tree : Option PyModule),
        (techFileErrors o techPath tree).Perm
          (techFileErrors REQUIRED_NAMES techPath tree))
    ∧ (∀ (o : List String), o.Perm REQUIRED_KWARGS →
        ∀ (kws : List PyKeyword),
          pdkMissingOf o kws = pdkMissingOf REQUIRED_KWARGS kws)
    ∧ (∀ (o : List String), o.Perm RECOMMENDED_KWARGS →
        ∀ (kws : List PyKeyword),
          pdkMissingOf o kws = pdkMissingOf RECOMMENDED_KWARGS kws) := by
  refine ⟨fun o ho techPath tree => ?_, fun o ho kws => ?_, fun o ho kws => ?_⟩
  · cases tree with
    | none => exact List.Perm.refl _
    | some m => exact ho.filterMap _
  · exact sortStrings_congr_perm (ho.filter _)
  · exact sortStrings_congr_perm (ho.filter _)

/-- Witness for C9's amended statement at the reversed iteration order. -/
theorem C9_order_dependence_witness :
    (techFileErrors reqOrderRev "mypkg/tech.py" (some [])).Perm
      (techFileErrors REQUIRED_NAMES "mypkg/tech.py" (some []))
    ∧ pdkMissingOf ["cross_sections", "layers", "cells", "name"] []
      = pdkMissingOf REQUIRED_KWARGS [] := by
  refine ⟨?_, ?_⟩
  · exact C9_order_dependence.1 reqOrderRev (by decide) "mypkg/tech.py" (some [])
  · exact C9_order_dependence.2.1 ["cross_sections", "layers", "cells", "name"]
      (by decide) []

/-- A candidate file that parses to a module with no recognized
constructor call (or does not parse) leaves the constructor-check loop
state unchanged. -/
theorem pdkProcessCandidate_skip (acc : CheckResult × Bool)
    (cand : String × Option PyModule)
    (h : cand.2.all (fun m => (pdkRecognizedCalls m).isEmpty) = true) :
    pdkProcessCandidate acc cand = acc := by
  obtain ⟨path, t⟩ := cand
  cases t with
  | none => rfl
  | some m =>
      have hm : pdkRecognizedCalls m = [] := by
        simpa [Option.all, List.isEmpty_iff] using h
      obtain ⟨r, b⟩ := acc
      cases r
      simp [pdkProcessCandidate, pdkCheckFile, hm]

/-- A whole candidate list of no-constructor files leaves the loop state
unchanged. -/
theorem pdkProcessCandidates_skip :
    ∀ (cands : List (String × Option PyModule)) (acc : CheckResult × Bool),
      (∀ cand ∈ cands,
        cand.2.all (fun m => (pdkRecognizedCalls m).isEmpty) = true) →
      pdkProcessCandidates acc cands = acc
  | [], _, _ => rfl
  | c :: t, acc, h => by
      have hstep := pdkProcessCandidate_skip acc c (h c (List.mem_cons_self c t))
      have ht := pdkProcessCandidates_skip t (pdkProcessCandidate acc c)
        (fun cand hc => h cand (List.mem_cons_of_mem c hc))
      calc pdkProcessCandidates acc (c :: t)
          = pdkProcessCandidates (pdkProcessCandidate acc c) t := rfl
        _ = pdkProcessCandidate acc c := ht
        _ = acc := hstep

/-- C10: when the package is located and no candidate file — the
initializer, the direct `*.py` files of each package subdirectory, and a
nested `pdk/` directory's files — contains a recognized `Pdk()`
constructor call, `check_pdk_object` records exactly the one error saying
so and exits 1. -/
theorem C10_no_pdk_call_single_error (p : PkgDir)
    (h : ∀ sub ∈ get_pdk_subdirs p,
      ∀ cand ∈ dedupCandidates (pdkCandidateList sub.1 sub.2) [],
        cand.2.all (fun m => (pdkRecognizedCalls m).isEmpty) = true) :
    (pdkObjectResult p).errors
      = ["No Pdk() constructor call found in any package file"]
    ∧ (check_pdk_object_main (some p)).2 = 1 := by
  have hfold :
      (get_pdk_subdirs p).foldl
        (fun acc sub =>
          pdkProcessCandidates acc (dedupCandidates (pdkCandidateList sub.1 sub.2) []))
        (CheckResult.new "check-pdk-object", false)
      = (CheckResult.new "check-pdk-object", false) := by
    generalize hsubs : get_pdk_subdirs p = subs at h
    clear hsubs
    induction subs with
    | nil => rfl
    | cons s t ih =>
        rw [List.foldl_cons,
          pdkProcessCandidates_skip _ _ (h s (List.mem_cons_self s t))]
        exact ih (fun sub hs cand hc => h sub (List.mem_cons_of_mem s hs) cand hc)
  have hres : pdkObjectResult p
      = (CheckResult.new "check-pdk-object").error
          "No Pdk() constructor call found in any package file" := by
    unfold pdkObjectResult
    rw [hfold]
    rfl
  refine ⟨by rw [hres]; rfl, ?_⟩
  show (pdkObjectResult p).report.2 = 1
  rw [hres]
  rfl

/-- A located package (two subdirectory files, no `pdk/` directory) whose
files define and call only helpers, never a `Pdk()` constructor. -/
def noPdkPkg : PkgDir :=
  ⟨"mypkg", "mypkg",
   { emptyDirData with
      initFile := some (some [])
      pyFiles :=
        [⟨"__init__.py", some []⟩,
         ⟨"util.py", some [.exprStmt (.call (.name "helper") [] [] 2)]⟩] },
   []⟩

/-- Witness for C10 at a concrete constructor-free package. -/
theorem C10_no_pdk_call_single_error_witness :
    (pdkObjectResult noPdkPkg).errors
      = ["No Pdk() constructor call found in any package file"]
    ∧ (check_pdk_object_main (some noPdkPkg)).2 = 1 :=
  C10_no_pdk_call_single_error noPdkPkg (by decide)

/-- The error messages one band contributes to the multi-band check. -/
def bandErrsOf (pkgPath : String) (b : BandEntry) : List String :=
  (if !b.data.initFile.isSome then [missingInitMsg pkgPath b.name] else [])
  ++ (if !b.data.hasCellsModule then [missingCellsMsg pkgPath b.name] else [])
  ++ (if !b.data.techFile.isSome then [missingTechMsg pkgPath b.name] else [])

theorem multiBandBandStep_spec (pkgPath : String) (r : CheckResult)
    (b : BandEntry) :
    (multiBandBandStep pkgPath r b).errors = r.errors ++ bandErrsOf pkgPath b
    ∧ (multiBandBandStep pkgPath r b).warnings = r.warnings := by
  unfold multiBandBandStep bandErrsOf
  cases hi : b.data.initFile.isSome <;> cases hc : b.data.hasCellsModule <;>
    cases ht : b.data.techFile.isSome <;>
    simp [CheckResult.error, hi, hc, ht]

theorem multiBandBandChecks_spec (pkgPath : String) :
    ∀ (bands : List BandEntry) (r : CheckResult),
      (multiBandBandChecks pkgPath r bands).errors
        = r.errors ++ (bands.map (bandErrsOf pkgPath)).flatten
      ∧ (multiBandBandChecks pkgPath r bands).warnings = r.warnings
  | [], r => by simp [multiBandBandChecks]
  | b :: t, r => by
      have hstep := multiBandBandStep_spec pkgPath r b
      have ih := multiBandBandChecks_spec pkgPath t (multiBandBandStep pkgPath r b)
      unfold multiBandBandChecks at ih ⊢
      rw [List.foldl_cons]
      refine ⟨?_, ?_⟩
      · rw [ih.1, hstep.1]
        simp
      · rw [ih.2, hstep.2]

theorem length_filterMap_ite {α β : Type} (p : α → Bool) (f : α → β) :
    ∀ l : List α,
      (l.filterMap (fun a => if p a then some (f a) else none)).length
        = (l.filter p).length
  | [] => rfl
  | a :: t => by
      by_cases h : p a <;>
        simp [List.filterMap_cons, List.filter_cons, h,
          length_filterMap_ite p f t]

/-- C6: the multi-band check is silent (exit 0, no output) when fewer than
two band directories exist; for every band, a missing `__init__.py`,
missing cells module or missing `tech.py` each independently records the
corresponding error for that band; for every band after the
lexicographically first (the reference), each of the four signature keys
whose boolean differs from the reference yields the warning naming both
bands and the differing value — and the number of cross-band warnings
equals the number of differing (band, key) pairs, so matching keys produce
no warning; cross-band warnings all surface in the run's warning list. -/
theorem C6_multi_band_consistency :
    (∀ (pkg : PkgDir) (testsFiles : Option (List String)),
        (find_band_dirs pkg).length < 2 →
        check_multi_band_main (some pkg) testsFiles = ([], 0))
    ∧ (∀ (pkg : PkgDir) (testsFiles : Option (List String)) (b : BandEntry),
        b ∈ find_band_dirs pkg →
        (b.data.initFile.isSome = false →
          missingInitMsg pkg.path b.name
            ∈ (multiBandResult pkg testsFiles).errors)
        ∧ (b.data.hasCellsModule = false →
          missingCellsMsg pkg.path b.name
            ∈ (multiBandResult pkg testsFiles).errors)
        ∧ (b.data.techFile.isSome = false →
          missingTechMsg pkg.path b.name
            ∈ (multiBandResult pkg testsFiles).errors))
    ∧ (∀ (ref : BandEntry) (rest : List BandEntry) (b : BandEntry)
         (k : String),
        b ∈ rest → k ∈ sigKeys →
        bandSig b.data k ≠ bandSig ref.data k →
        inconsistencyMsg ref.name k (bandSig ref.data k) b.name
            (bandSig b.data k)
          ∈ multiBandCrossWarnings (ref :: rest))
    ∧ (∀ (ref : BandEntry) (rest : List BandEntry),
        (multiBandCrossWarnings (ref :: rest)).length
          = (rest.map (fun b =>
              (sigKeys.filter
                (fun k => bandSig b.data k != bandSig ref.data k)).length)).sum)
    ∧ (∀ (pkg : PkgDir) (testsFiles : Option (List String)) (w : String),
        w ∈ multiBandCrossWarnings (find_band_dirs pkg) →
        w ∈ (multiBandResult pkg testsFiles).warnings) := by
  have herrs : ∀ (pkg : PkgDir) (testsFiles : Option (List String)),
      (multiBandResult pkg testsFiles).errors
        = ((find_band_dirs pkg).map (bandErrsOf pkg.path)).flatten := by
    intro pkg testsFiles
    show (multiBandBandChecks pkg.path (CheckResult.new "check-multi-band")
        (find_band_dirs pkg)).errors = _
    rw [(multiBandBandChecks_spec pkg.path (find_band_dirs pkg)
      (CheckResult.new "check-multi-band")).1]
    rfl
  refine ⟨fun pkg testsFiles h => ?_, fun pkg testsFiles b hb => ?_,
    fun ref rest b k hb hk hne => ?_, fun ref rest => ?_,
    fun pkg testsFiles w hw => ?_⟩
  · simp [check_multi_band_main, if_pos h]
  · refine ⟨fun hflag => ?_, fun hflag => ?_, fun hflag => ?_⟩ <;>
    · rw [herrs]
      refine List.mem_flatten.mpr
        ⟨bandErrsOf pkg.path b, List.mem_map.mpr ⟨b, hb, rfl⟩, ?_⟩
      simp [bandErrsOf, hflag]
  · simp only [multiBandCrossWarnings]
    refine List.mem_flatten.mpr
      ⟨_, List.mem_map.mpr ⟨b, hb, rfl⟩, ?_⟩
    refine List.mem_filterMap.mpr ⟨k, hk, ?_⟩
    rw [if_pos (bne_iff_ne.mpr hne)]
  · simp only [multiBandCrossWarnings, List.length_flatten, List.map_map]
    congr 1
    refine List.map_congr_left (fun b _ => ?_)
    exact length_filterMap_ite _ _ sigKeys
  · have hwarn : (multiBandResult pkg testsFiles).warnings
        = multiBandCrossWarnings (find_band_dirs pkg)
          ++ multiBandTestWarnings pkg.name testsFiles (find_band_dirs pkg)
          ++ multiBandLayersWarnings pkg.path (find_band_dirs pkg) := by
      show (multiBandBandChecks pkg.path (CheckResult.new "check-multi-band")
          (find_band_dirs pkg)).warnings ++ _ ++ _ ++ _ = _
      rw [(multiBandBandChecks_spec pkg.path (find_band_dirs pkg)
        (CheckResult.new "check-multi-band")).2]
      rfl
    rw [hwarn]
    simp only [List.mem_append]
    exact .inl (.inl hw)

/-- A band directory holding `__init__.py`, `tech.py` and `cells.py`. -/
def bandTech : BandEntry :=
  ⟨"a", true,
   { emptyDirData with
      initFile := some (some [])
      techFile := some (some [])
      cellsPyFile := some (some []) }⟩

/-- A band directory holding `__init__.py` and `cells.py` but no
`tech.py`. -/
def bandNoTech : BandEntry :=
  ⟨"b", true,
   { emptyDirData with
      initFile := some (some [])
      cellsPyFile := some (some []) }⟩

/-- A two-band package: band `a` (the reference) has `tech.py`, band `b`
does not. -/
def pkgMB : PkgDir := ⟨"mypkg", "mypkg", emptyDirData, [bandNoTech, bandTech]⟩

/-- Witness for C6: a bandless package is silent; on the two-band package,
band `b`'s missing `tech.py` is an error naming that band, and the
`has_tech` signature difference surfaces as the cross-band warning. -/
theorem C6_multi_band_consistency_witness :
    check_multi_band_main (some techEmptyPkg) none = ([], 0)
    ∧ missingTechMsg "mypkg" "b" ∈ (multiBandResult pkgMB none).errors
    ∧ inconsistencyMsg "a" "has_tech" true "b" false
        ∈ (multiBandResult pkgMB none).warnings := by
  refine ⟨C6_multi_band_consistency.1 techEmptyPkg none (by decide), ?_, ?_⟩
  · exact (C6_multi_band_consistency.2.1 pkgMB none bandNoTech
      (List.mem_cons_of_mem _ (List.mem_cons_self _ _))).2.2 rfl
  · have h3 := C6_multi_band_consistency.2.2.1 bandTech [bandNoTech]
      bandNoTech "has_tech" (List.mem_cons_self _ _) (by decide) (by decide)
    exact C6_multi_band_consistency.2.2.2.2 pkgMB none _ h3

end PdkHooks
